import Mathlib

/-!
Verification of the SurfAI backend `EnhancedUserProfileService`
(src/services/EnhancedUserProfileService.js).

JavaScript values handled by the service (profiles, partial updates,
session records) are dynamic JSON-like objects; they are embedded as the
inductive type `JVal` below, with numbers as exact rationals.  The
service's tiered store (in-memory cache with TTL, Supabase durable store,
in-memory fallback map) is embedded as an explicit state record, and each
service method as a state-passing function.  Timestamps (`Date.now()`
milliseconds and `toISOString()` strings) are threaded as parameters.
-/

namespace SurfAI

/-- A JavaScript/JSON value.  `num` carries an exact rational: arithmetic
performed by the service on these values is modelled exactly. -/
inductive JVal where
  | null : JVal
  | bool (b : Bool) : JVal
  | num (q : ℚ) : JVal
  | str (s : String) : JVal
  | arr (xs : List JVal) : JVal
  | obj (kvs : List (String × JVal)) : JVal

/-- Lookup of an own property in an object's key/value list
(JavaScript objects have unique keys; first match). -/
def getKey {α : Type} : List (String × α) → String → Option α
  | [], _ => none
  | (k', v) :: rest, k => if k' = k then some v else getKey rest k

/-- Property assignment `o[k] = v`: replace in place if the key exists,
append otherwise (JavaScript property insertion order). -/
def setKey {α : Type} : List (String × α) → String → α → List (String × α)
  | [], k, v => [(k, v)]
  | (k', v') :: rest, k, v =>
      if k' = k then (k, v) :: rest else (k', v') :: setKey rest k v

/-- JavaScript truthiness of a value. -/
def truthy : JVal → Bool
  | .null => false
  | .bool b => b
  | .num q => q ≠ 0
  | .str s => s ≠ ""
  | .arr _ => true
  | .obj _ => true

/-- JavaScript `a || b`. -/
def jor (a b : JVal) : JVal := if truthy a then a else b

/-- Property access `o.k`; a missing property (JS `undefined`) is
collapsed to `null`, which has the same truthiness and is treated the
same by every operation the service performs on it. -/
def jgetV : JVal → String → JVal
  | .obj kvs, k => (getKey kvs k).getD .null
  | _, _ => .null

/-- `isObject(item)`: `item && typeof item === 'object' && !Array.isArray(item)`
(source lines 601-603).  True exactly for plain keyed objects. -/
def isObject : JVal → Bool
  | .obj _ => true
  | _ => false

/-- Own enumerable properties of `ToObject(v)`, as copied by
`Object.assign({}, v)`: an object's entries; an array's elements under
stringified index keys; a string's characters under index keys; nothing
for `null`, booleans and numbers. -/
def assignProps : JVal → List (String × JVal)
  | .obj kvs => kvs
  | .arr xs => xs.enum.map (fun p => (toString p.1, p.2))
  | .str s => s.data.enum.map (fun p => (toString p.1, JVal.str (String.mk [p.2])))
  | _ => []

mutual

/-- `deepMerge(target, source)` (source lines 584-599):
`output = Object.assign({}, target)`; when both arguments are plain
objects, each key of `source` is processed in order: an object-valued
source entry is assigned directly when `target` lacks the key and merged
recursively when it has it; any other source entry overwrites. -/
def deepMerge : JVal → JVal → JVal
  | .obj tkvs, .obj skvs => .obj (deepMergeLoop tkvs skvs tkvs)
  | t, _ => .obj (assignProps t)
termination_by _ s => sizeOf s
decreasing_by all_goals simp_wf

/-- The `Object.keys(source).forEach` loop of `deepMerge`, folding over
the source entries while updating the output accumulator. -/
def deepMergeLoop (tkvs : List (String × JVal)) :
    List (String × JVal) → List (String × JVal) → List (String × JVal)
  | [], out => out
  | (k, v) :: rest, out =>
      let out' :=
        if isObject v then
          match getKey tkvs k with
          | none => setKey out k v
          | some tv => setKey out k (deepMerge tv v)
        else setKey out k v
      deepMergeLoop tkvs rest out'
termination_by l _ => sizeOf l
decreasing_by all_goals (simp_wf <;> omega)

end

/-! ### Association-list and merge-loop lemmas -/

theorem getKey_setKey_self {α : Type} (kvs : List (String × α)) (k : String) (v : α) :
    getKey (setKey kvs k v) k = some v := by
  induction kvs with
  | nil => simp [getKey, setKey]
  | cons hd tl ih =>
      obtain ⟨k', v'⟩ := hd
      by_cases h : k' = k <;> simp [getKey, setKey, h, ih]

theorem getKey_setKey_ne {α : Type} (kvs : List (String × α)) (k k' : String) (v : α)
    (h : k' ≠ k) : getKey (setKey kvs k' v) k = getKey kvs k := by
  induction kvs with
  | nil => simp [getKey, setKey, h]
  | cons hd tl ih =>
      obtain ⟨k₀, v₀⟩ := hd
      by_cases h0 : k₀ = k'
      · subst h0; simp [getKey, setKey, h]
      · by_cases h1 : k₀ = k <;> simp [getKey, setKey, h0, h1, ih, Ne.symm h]

theorem getKey_mem {α : Type} {kvs : List (String × α)} {k : String} {v : α}
    (h : getKey kvs k = some v) : (k, v) ∈ kvs := by
  induction kvs with
  | nil => simp [getKey] at h
  | cons hd tl ih =>
      obtain ⟨k', v'⟩ := hd
      by_cases h0 : k' = k
      · subst h0
        simp [getKey] at h
        simp [h]
      · simp [getKey, h0] at h
        exact List.mem_cons_of_mem _ (ih h)

/-- Keys the update does not mention are left as the accumulator has them. -/
theorem deepMergeLoop_getKey_not_mem (tkvs : List (String × JVal)) (k : String) :
    ∀ (skvs out : List (String × JVal)), k ∉ skvs.map Prod.fst →
      getKey (deepMergeLoop tkvs skvs out) k = getKey out k := by
  intro skvs
  induction skvs with
  | nil => intro out _; simp [deepMergeLoop]
  | cons hd tl ih =>
      intro out hk
      obtain ⟨k', v⟩ := hd
      rw [List.map_cons] at hk
      have hne : k' ≠ k := fun h => hk (by simp [h])
      have htl : k ∉ tl.map Prod.fst := fun h => hk (List.mem_cons_of_mem _ h)
      rw [deepMergeLoop]
      split
      · rw [ih _ htl]
        split <;> rw [getKey_setKey_ne _ _ _ _ hne]
      · rw [ih _ htl, getKey_setKey_ne _ _ _ _ hne]

/-- Behaviour of the merge loop at a key the update mentions: an
object-valued entry is taken verbatim on a fresh key and merged
recursively on an existing one, and any other entry overwrites. -/
theorem deepMergeLoop_getKey (tkvs : List (String × JVal)) (k : String) (v : JVal) :
    ∀ (skvs out : List (String × JVal)), (skvs.map Prod.fst).Nodup →
      getKey skvs k = some v →
      getKey (deepMergeLoop tkvs skvs out) k =
        some (if isObject v then
                match getKey tkvs k with
                | none => v
                | some tv => deepMerge tv v
              else v) := by
  intro skvs
  induction skvs with
  | nil => intro out _ hv; simp [getKey] at hv
  | cons hd tl ih =>
      intro out hnd hv
      obtain ⟨k', v'⟩ := hd
      rw [List.map_cons] at hnd
      have hnd2 := hnd.of_cons
      by_cases h0 : k' = k
      · subst h0
        rw [getKey] at hv
        simp at hv
        subst hv
        have hkout : k' ∉ tl.map Prod.fst := hnd.not_mem
        rw [deepMergeLoop]
        rw [deepMergeLoop_getKey_not_mem _ _ _ _ hkout]
        split
        · split <;> rw [getKey_setKey_self]
        · rw [getKey_setKey_self]
      · rw [getKey] at hv
        rw [if_neg h0] at hv
        rw [deepMergeLoop]
        split
        · exact ih _ hnd2 hv
        · exact ih _ hnd2 hv

/-- A non-object target value makes the recursion fall through to the
bare `Object.assign({}, target)` copy. -/
theorem deepMerge_of_not_isObject_left (t s : JVal) (h : isObject t = false) :
    deepMerge t s = .obj (assignProps t) := by
  rw [deepMerge.eq_def]
  cases t
  case obj kvs => simp [isObject] at h
  all_goals rfl

/-! ### Claims C2 and C10: merge semantics -/

/-- Claim C2: for every current profile object and partial update object
(JavaScript objects have pairwise-distinct keys, the `Nodup` hypothesis),
a key whose update value is a plain keyed object is assigned directly
when the target lacks the key and merged recursively when both have it,
while every array-valued or scalar-valued update key fully replaces the
target's value. -/
theorem deepMerge_update_semantics (tkvs skvs : List (String × JVal)) (k : String) (v : JVal)
    (hnd : (skvs.map Prod.fst).Nodup) (hv : getKey skvs k = some v) :
    ∃ okvs, deepMerge (JVal.obj tkvs) (JVal.obj skvs) = JVal.obj okvs ∧
      getKey okvs k = some (if isObject v then
          match getKey tkvs k with
          | none => v
          | some tv => deepMerge tv v
        else v) :=
  ⟨deepMergeLoop tkvs skvs tkvs, by rw [deepMerge],
    deepMergeLoop_getKey tkvs k v skvs tkvs hnd hv⟩

/-- Witness for claim C2, the example named by the claim: merging
`{boards: [b1]}` over `{boards: [b0]}` yields `boards == [b1]`, not
`[b0, b1]`. -/
theorem deepMerge_update_semantics_witness :
    ∃ okvs, deepMerge (JVal.obj [("boards", JVal.arr [JVal.str "b0"])])
        (JVal.obj [("boards", JVal.arr [JVal.str "b1"])]) = JVal.obj okvs ∧
      getKey okvs "boards" = some (JVal.arr [JVal.str "b1"]) := by
  have h := deepMerge_update_semantics [("boards", JVal.arr [JVal.str "b0"])]
      [("boards", JVal.arr [JVal.str "b1"])] "boards" (JVal.arr [JVal.str "b1"])
      (by simp) (by rfl)
  simpa [isObject] using h

/-- Claim C10 (amended): when an update key holds a plain object but the
target's value at that key is a non-object, the recursion returns
`Object.assign({}, target[k])`: the update object's entire content is
discarded; for a number, boolean or null target value this copy is the
empty object, while for an array (or string) it is a plain object holding
the elements under stringified index keys. -/
theorem deepMerge_nonobject_target (tkvs skvs : List (String × JVal)) (k : String)
    (tv v : JVal) (hnd : (skvs.map Prod.fst).Nodup)
    (ht : getKey tkvs k = some tv) (hto : isObject tv = false)
    (hs : getKey skvs k = some v) (hvo : isObject v = true) :
    ∃ okvs, deepMerge (JVal.obj tkvs) (JVal.obj skvs) = JVal.obj okvs ∧
      getKey okvs k = some (JVal.obj (assignProps tv)) := by
  refine ⟨deepMergeLoop tkvs skvs tkvs, by rw [deepMerge], ?_⟩
  rw [deepMergeLoop_getKey tkvs k v skvs tkvs hnd hs]
  simp [hvo, ht, deepMerge_of_not_isObject_left _ _ hto]

/-- Witness for claim C10: a scalar (number) target value under an
object-valued update key becomes the empty object
(`assignProps (num 7) = []`), losing the update's data. -/
theorem deepMerge_nonobject_target_witness :
    ∃ okvs, deepMerge (JVal.obj [("k", JVal.num 7)])
        (JVal.obj [("k", JVal.obj [("x", JVal.num 1)])]) = JVal.obj okvs ∧
      getKey okvs "k" = some (JVal.obj (assignProps (JVal.num 7))) :=
  deepMerge_nonobject_target [("k", JVal.num 7)] [("k", JVal.obj [("x", JVal.num 1)])]
    "k" (JVal.num 7) (JVal.obj [("x", JVal.num 1)]) (by simp) (by rfl) (by rfl) (by rfl) (by rfl)

/-- Counterexample to claim C10 as stated: with an array-valued target
entry `k: ["b"]` and object-valued update entry, the merged value at `k`
is `{"0": "b"}` — not the empty object the claim asserts. -/
theorem deepMerge_nonobject_target_cex :
    deepMerge (JVal.obj [("k", JVal.arr [JVal.str "b"])])
        (JVal.obj [("k", JVal.obj [("x", JVal.num 1)])]) =
      JVal.obj [("k", JVal.obj [("0", JVal.str "b")])] ∧
    JVal.obj [("0", JVal.str "b")] ≠ JVal.obj ([] : List (String × JVal)) := by
  constructor
  · simp [deepMerge, deepMergeLoop, getKey, setKey, assignProps, isObject]
    rfl
  · simp

end SurfAI

namespace SurfAI

/-! ### The tiered profile repository -/

/-- `getDefaultSchedule()` (source lines 571-581). -/
def getDefaultSchedule : JVal := .obj [
  ("monday", .obj [("available", .bool false), ("timeSlots", .arr [])]),
  ("tuesday", .obj [("available", .bool false), ("timeSlots", .arr [])]),
  ("wednesday", .obj [("available", .bool false), ("timeSlots", .arr [])]),
  ("thursday", .obj [("available", .bool false), ("timeSlots", .arr [])]),
  ("friday", .obj [("available", .bool false), ("timeSlots", .arr [])]),
  ("saturday", .obj [("available", .bool true),
    ("timeSlots", .arr [.str "06:00-12:00", .str "14:00-18:00"])]),
  ("sunday", .obj [("available", .bool true),
    ("timeSlots", .arr [.str "06:00-12:00", .str "14:00-18:00"])])]

/-- `buildCompleteProfile(userId, userData)` (source lines 470-546): the
complete profile built from a partial `userData` object, every omitted or
falsy field replaced by its documented default; `nowIso` is the
`new Date().toISOString()` value used for both timestamps. -/
def buildCompleteProfile (userId : String) (u : JVal) (nowIso : String) : JVal :=
  .obj [
    ("id", .str userId),
    ("createdAt", .str nowIso),
    ("updatedAt", .str nowIso),
    ("personal", .obj [
      ("name", jor (jgetV u "name") (.str "")),
      ("email", jor (jgetV u "email") (.str "")),
      ("location", jor (jgetV u "location") (.str "")),
      ("timezone", jor (jgetV u "timezone") (.str "Europe/Paris"))]),
    ("surfLevel", .obj [
      ("overall", jor (jgetV u "surfLevel") (jor (jgetV u "level") (.num 1))),
      ("progression", .obj [
        ("paddling", jor (jgetV u "paddling") (.num 1)),
        ("takeoff", jor (jgetV u "takeoff") (.num 1)),
        ("turning", jor (jgetV u "turning") (.num 1)),
        ("tubeRiding", jor (jgetV u "tubeRiding") (.num 1))]),
      ("experience", .obj [
        ("yearsActive", jor (jgetV u "yearsActive") (.num 0)),
        ("sessionsCount", .num 0),
        ("lastSession", .null)])]),
    ("equipment", .obj [
      ("boards", jor (jgetV u "boards") (.arr [])),
      ("suits", jor (jgetV u "suits") (.arr [])),
      ("accessories", jor (jgetV u "accessories") (.arr []))]),
    ("preferences", .obj [
      ("waveSize", .obj [
        ("min", jor (jgetV u "minWaveSize") (jor (jgetV u "wave_min") (.num (3/10)))),
        ("max", jor (jgetV u "maxWaveSize") (jor (jgetV u "wave_max") (.num 2))),
        ("optimal", jor (jgetV u "optimalWaveSize")
          (jor (jgetV u "optimal_wave_size") (.num (6/5))))]),
      ("windTolerance", .obj [
        ("onshore", jor (jgetV u "onshoreWind") (.num 15)),
        ("offshore", jor (jgetV u "offshoreWind") (.num 25)),
        ("sideshore", jor (jgetV u "sideshoreWind") (.num 20))]),
      ("crowdTolerance", jor (jgetV u "crowdTolerance") (.str "medium")),
      ("waterTemp", .obj [("min", jor (jgetV u "minWaterTemp") (.num 12))])]),
    ("spots", .obj [
      ("favorites", jor (jgetV u "favoriteSpots") (.arr [])),
      ("history", .arr []),
      ("blacklist", jor (jgetV u "blacklistedSpots") (.arr []))]),
    ("availability", .obj [
      ("schedule", jor (jgetV u "schedule") getDefaultSchedule),
      ("travelDistance", jor (jgetV u "maxTravelDistance") (.num 30)),
      ("notificationPrefs", .obj [
        ("advance", jor (jgetV u "notificationAdvance") (.num 24)),
        ("types", jor (jgetV u "notificationTypes")
          (.arr [.str "optimal", .str "alternative"]))])]),
    ("goals", .obj [
      ("current", jor (jgetV u "currentGoals") (.arr [])),
      ("achievements", .arr []),
      ("progressTracking", .obj [
        ("sessionsThisMonth", .num 0),
        ("progressionPoints", .num 0),
        ("challengesCompleted", .arr [])])])]

/-- `getDefaultProfile(userId)` (source lines 671-681): a pure profile
synthesis — it performs no write to any tier. -/
def getDefaultProfile (userId : String) (nowIso : String) : JVal :=
  buildCompleteProfile userId (.obj [
    ("name", .str "SurfAI User"),
    ("email", .str ""),
    ("location", .str "Biarritz, France"),
    ("surfLevel", .num 3),
    ("minWaveSize", .num (4/5)),
    ("maxWaveSize", .num (5/2)),
    ("optimalWaveSize", .num (6/5))]) nowIso

/-- A `profilesCache` entry: `{ data: profile, timestamp: Date.now() }`. -/
structure CacheEntry where
  data : JVal
  timestamp : Nat

/-- The Supabase durable tier as the service observes it.  A profile is
readable when both its `user_profiles` and `user_extended_profiles` rows
exist and the stored JSON round-trips, and both are upserted together on
every write, so `records` holds the extended-profile value per user id.
`fail` makes every adapter call throw (store outage), with `errMsg` as
the thrown error's message. -/
structure Store where
  records : List (String × JVal)
  fail : Bool
  errMsg : String

/-- The service's mutable state: the TTL cache, the in-memory fallback
table (`memoryDB.users`), and the optional Supabase client. -/
structure ServiceState where
  profilesCache : List (String × CacheEntry)
  memoryUsers : List (String × JVal)
  supabase : Option Store

/-- `this.cacheTimeout = 5 * 60 * 1000` (source line 24), milliseconds. -/
def cacheTimeout : Nat := 5 * 60 * 1000

/-- The shared tail of both read paths (source lines 144-151 and
156-158): the in-memory fallback, else a synthesized default profile. -/
def memOrDefault (s : ServiceState) (userId : String) (nowIso : String) : JVal :=
  match getKey s.memoryUsers userId with
  | some p => p
  | none => getDefaultProfile userId nowIso

/-- `getUserProfile(userId)` (source lines 105-160).  Cache first (entry
present and younger than the TTL); else the durable read — on success the
profile is returned and the cache refreshed, on a missing record the
fallback tail runs, and a thrown adapter error is caught into the same
fallback tail.  `nowMs` is `Date.now()`. -/
def getUserProfile (s : ServiceState) (userId : String) (nowMs : Nat) (nowIso : String) :
    JVal × ServiceState :=
  let afterCache : JVal × ServiceState :=
    match s.supabase with
    | some st =>
        if st.fail then (memOrDefault s userId nowIso, s)
        else
          match getKey st.records userId with
          | some p => (p, { s with profilesCache := setKey s.profilesCache userId ⟨p, nowMs⟩ })
          | none => (memOrDefault s userId nowIso, s)
    | none => (memOrDefault s userId nowIso, s)
  match getKey s.profilesCache userId with
  | some cached =>
      if nowMs - cached.timestamp < cacheTimeout then (cached.data, s) else afterCache
  | none => afterCache

/-- The cache-hit test of the read path (source line 109): the cached
snapshot when an entry exists and its age is below the TTL. -/
def freshAt (s : ServiceState) (userId : String) (nowMs : Nat) : Option JVal :=
  match getKey s.profilesCache userId with
  | some e => if nowMs - e.timestamp < cacheTimeout then some e.data else none
  | none => none

/-- Claim C1: `getUserProfile` always returns a profile and consults the
tiers in strict order.  A fresh cache entry (age below the TTL) is
returned as-is, the state is unchanged, and the result does not depend on
the durable store at all — so a change of the durable store's backing
record is invisible within the TTL window.  Only on a cache miss or an
expired entry is the durable store queried, and only a successful durable
read refreshes the cache; the fallback and default paths leave the state
untouched. -/
theorem getUserProfile_tier_order (s : ServiceState) (uid : String) (nowMs : Nat)
    (iso : String) :
    (∀ p, freshAt s uid nowMs = some p →
       getUserProfile s uid nowMs iso = (p, s) ∧
       ∀ store, getUserProfile { s with supabase := store } uid nowMs iso =
         (p, { s with supabase := store })) ∧
    (freshAt s uid nowMs = none →
       (∀ st p, s.supabase = some st → st.fail = false → getKey st.records uid = some p →
          getUserProfile s uid nowMs iso =
            (p, { s with profilesCache := setKey s.profilesCache uid ⟨p, nowMs⟩ })) ∧
       (∀ st, s.supabase = some st → st.fail = false → getKey st.records uid = none →
          getUserProfile s uid nowMs iso = (memOrDefault s uid iso, s)) ∧
       (∀ st, s.supabase = some st → st.fail = true →
          getUserProfile s uid nowMs iso = (memOrDefault s uid iso, s)) ∧
       (s.supabase = none →
          getUserProfile s uid nowMs iso = (memOrDefault s uid iso, s))) := by
  constructor
  · intro p hp
    unfold freshAt at hp
    unfold getUserProfile
    constructor
    · revert hp
      cases hc : getKey s.profilesCache uid with
      | none => simp
      | some e =>
          simp only []
          split
          · intro h; simp at h; simp [h]
          · simp
    · intro store
      revert hp
      cases hc : getKey s.profilesCache uid with
      | none => simp
      | some e =>
          simp only []
          split
          · intro h; simp at h; simp [hc, h]
          · simp
  · intro hmiss
    unfold freshAt at hmiss
    refine ⟨?_, ?_, ?_, ?_⟩
    · intro st p hst hfail hrec
      unfold getUserProfile
      revert hmiss
      cases hc : getKey s.profilesCache uid with
      | none => simp [hst, hfail, hrec]
      | some e =>
          simp only []
          split
          · simp
          · simp [hst, hfail, hrec]
    · intro st hst hfail hrec
      unfold getUserProfile
      revert hmiss
      cases hc : getKey s.profilesCache uid with
      | none => simp [hst, hfail, hrec]
      | some e =>
          simp only []
          split
          · simp
          · simp [hst, hfail, hrec]
    · intro st hst hfail
      unfold getUserProfile
      revert hmiss
      cases hc : getKey s.profilesCache uid with
      | none => simp [hst, hfail]
      | some e =>
          simp only []
          split
          · simp
          · simp [hst, hfail]
    · intro hst
      unfold getUserProfile
      revert hmiss
      cases hc : getKey s.profilesCache uid with
      | none => simp [hst]
      | some e =>
          simp only []
          split
          · simp
          · simp [hst]

end SurfAI

namespace SurfAI

/-- The id a `userData.id` value contributes to `userData.id || generateId()`
(source line 40).  The service's ids are strings; a non-string id is not
modelled. -/
def idKey : JVal → Option String
  | .str s => if s = "" then none else some s
  | _ => none

/-- `createUserProfile(userData)` (source lines 39-103).  `genId` stands
for the `generateId()` draw used when `userData.id` is falsy.  On a
durable-write failure the catch block still writes memory and cache; in
every branch the built profile is cached, stored in the fallback table
and returned. -/
def createUserProfile (s : ServiceState) (userData : JVal) (genId : String)
    (nowMs : Nat) (nowIso : String) : JVal × ServiceState :=
  let userId := (idKey (jgetV userData "id")).getD genId
  let profile := buildCompleteProfile userId userData nowIso
  match s.supabase with
  | some st =>
      if st.fail then
        (profile, { s with
          memoryUsers := setKey s.memoryUsers userId profile,
          profilesCache := setKey s.profilesCache userId ⟨profile, nowMs⟩ })
      else
        (profile, { s with
          supabase := some { st with records := setKey st.records userId profile },
          profilesCache := setKey s.profilesCache userId ⟨profile, nowMs⟩,
          memoryUsers := setKey s.memoryUsers userId profile })
  | none =>
      (profile, { s with
        profilesCache := setKey s.profilesCache userId ⟨profile, nowMs⟩,
        memoryUsers := setKey s.memoryUsers userId profile })

/-- Property assignment `o.k = v` on a profile value (profiles are
always objects; any other value is left unchanged). -/
def jset : JVal → String → JVal → JVal
  | .obj kvs, k, v => .obj (setKey kvs k v)
  | t, _, _ => t

/-- `updateUserProfile(userId, updates)` (source lines 162-206): read
the current profile (full read path), deep-merge the updates over it,
stamp `updatedAt`; a durable-store write failure is rethrown as the
persistence error (`Impossible de mettre à jour le profil: ...`) *before*
the cache and fallback writes; otherwise all tiers receive the merged
profile. -/
def updateUserProfile (s : ServiceState) (userId : String) (updates : JVal)
    (nowMs : Nat) (nowIso : String) : Except String JVal × ServiceState :=
  let read := getUserProfile s userId nowMs nowIso
  let s1 := read.2
  let updatedProfile := jset (deepMerge read.1 updates) "updatedAt" (.str nowIso)
  match s1.supabase with
  | some st =>
      if st.fail then
        (.error ("Impossible de mettre à jour le profil: " ++ st.errMsg), s1)
      else
        (.ok updatedProfile, { s1 with
          supabase := some { st with records := setKey st.records userId updatedProfile },
          profilesCache := setKey s1.profilesCache userId ⟨updatedProfile, nowMs⟩,
          memoryUsers := setKey s1.memoryUsers userId updatedProfile })
  | none =>
      (.ok updatedProfile, { s1 with
        profilesCache := setKey s1.profilesCache userId ⟨updatedProfile, nowMs⟩,
        memoryUsers := setKey s1.memoryUsers userId updatedProfile })

/-- The profile value `updateUserProfile` builds before persisting:
current profile (per the read path) deep-merged with the updates, with
`updatedAt` stamped (source lines 164-166). -/
def mergedProfile (s : ServiceState) (userId : String) (updates : JVal)
    (nowMs : Nat) (nowIso : String) : JVal :=
  jset (deepMerge (getUserProfile s userId nowMs nowIso).1 updates) "updatedAt" (.str nowIso)

theorem getUserProfile_snd_fields (s : ServiceState) (uid : String) (nowMs : Nat)
    (iso : String) :
    (getUserProfile s uid nowMs iso).2.memoryUsers = s.memoryUsers ∧
    (getUserProfile s uid nowMs iso).2.supabase = s.supabase := by
  obtain ⟨cache, mem, sup⟩ := s
  refine ⟨?_, ?_⟩ <;>
    (unfold getUserProfile; repeat' split) <;> rfl

theorem getUserProfile_state_of_no_durable_read (s : ServiceState) (uid : String)
    (nowMs : Nat) (iso : String)
    (h : ∀ st, s.supabase = some st → st.fail = true ∨ getKey st.records uid = none) :
    (getUserProfile s uid nowMs iso).2 = s := by
  obtain ⟨cache, mem, sup⟩ := s
  rcases sup with _ | st
  · (unfold getUserProfile; repeat' split) <;> first | rfl | (exfalso; simp_all)
  · rcases h st rfl with hf | hr
    · (unfold getUserProfile; repeat' split) <;> first | rfl | (exfalso; simp_all)
    · (unfold getUserProfile; repeat' split) <;> first | rfl | (exfalso; simp_all)

/-- Claim C3: `createUserProfile` never fails because of the durable
store.  Whatever the durable tier does (absent, succeeding, or throwing),
the built profile is written to the cache and the in-memory fallback
table, and that same profile value is returned to the caller. -/
theorem createUserProfile_always_persists (s : ServiceState) (userData : JVal)
    (genId : String) (nowMs : Nat) (nowIso : String) :
    (createUserProfile s userData genId nowMs nowIso).1 =
      buildCompleteProfile ((idKey (jgetV userData "id")).getD genId) userData nowIso ∧
    getKey (createUserProfile s userData genId nowMs nowIso).2.profilesCache
        ((idKey (jgetV userData "id")).getD genId) =
      some ⟨buildCompleteProfile ((idKey (jgetV userData "id")).getD genId) userData nowIso,
            nowMs⟩ ∧
    getKey (createUserProfile s userData genId nowMs nowIso).2.memoryUsers
        ((idKey (jgetV userData "id")).getD genId) =
      some (buildCompleteProfile ((idKey (jgetV userData "id")).getD genId) userData nowIso) := by
  unfold createUserProfile
  cases s.supabase with
  | none => simp [getKey_setKey_self]
  | some st =>
      simp only []
      split <;> simp [getKey_setKey_self]

end SurfAI

namespace SurfAI

/-- Claim C4 (amended): `updateUserProfile` raises the persistence error
exactly when the durable store is present and its write fails — the
fallback write is then skipped and the error (carrying the cause message)
is surfaced even though the in-memory fallback write could not have
failed.  In every other case it returns the merged profile with
`updatedAt` stamped, written to the cache, the fallback table and (when
present) the durable store. -/
theorem updateUserProfile_error_semantics (s : ServiceState) (uid : String) (upd : JVal)
    (nowMs : Nat) (iso : String) :
    (∀ st, s.supabase = some st → st.fail = true →
       updateUserProfile s uid upd nowMs iso =
         (.error ("Impossible de mettre à jour le profil: " ++ st.errMsg), s)) ∧
    ((s.supabase = none ∨ ∃ st, s.supabase = some st ∧ st.fail = false) →
       (updateUserProfile s uid upd nowMs iso).1 =
         .ok (mergedProfile s uid upd nowMs iso) ∧
       getKey (updateUserProfile s uid upd nowMs iso).2.profilesCache uid =
         some ⟨mergedProfile s uid upd nowMs iso, nowMs⟩ ∧
       getKey (updateUserProfile s uid upd nowMs iso).2.memoryUsers uid =
         some (mergedProfile s uid upd nowMs iso)) ∧
    (∀ st, s.supabase = some st → st.fail = false →
       ∃ st', (updateUserProfile s uid upd nowMs iso).2.supabase = some st' ∧
         getKey st'.records uid = some (mergedProfile s uid upd nowMs iso)) := by
  refine ⟨?_, ?_, ?_⟩
  · intro st hst hfail
    have hstate : (getUserProfile s uid nowMs iso).2 = s :=
      getUserProfile_state_of_no_durable_read s uid nowMs iso (by
        intro st' hst'
        rw [hst] at hst'
        injection hst' with h
        subst h
        exact Or.inl hfail)
    unfold updateUserProfile
    simp [hstate, hst, hfail]
  · intro hok
    have hsup := (getUserProfile_snd_fields s uid nowMs iso).2
    rcases hok with hnone | ⟨st, hst, hfail⟩
    · unfold updateUserProfile mergedProfile
      simp [hsup, hnone, getKey_setKey_self]
    · unfold updateUserProfile mergedProfile
      simp [hsup, hst, hfail, getKey_setKey_self]
  · intro st hst hfail
    have hsup := (getUserProfile_snd_fields s uid nowMs iso).2
    unfold updateUserProfile mergedProfile
    simp [hsup, hst, hfail, getKey_setKey_self]

/-- Witness for claim C4's amended theorem at a concrete state with no
durable store: the update returns the merged profile. -/
theorem updateUserProfile_error_semantics_witness :
    (updateUserProfile ⟨[], [], none⟩ "u" (JVal.obj []) 0 "T").1 =
      .ok (mergedProfile ⟨[], [], none⟩ "u" (JVal.obj []) 0 "T") :=
  ((updateUserProfile_error_semantics ⟨[], [], none⟩ "u" (JVal.obj []) 0 "T").2.1
    (Or.inl rfl)).1

/-- Counterexample to claim C4 as stated: a state whose durable store
alone fails (the fallback map is healthy and holds the profile) makes
`updateUserProfile` surface the persistence error, although the claim
says a durable-store failure alone is never surfaced. -/
theorem updateUserProfile_error_cex :
    (updateUserProfile ⟨[], [("u", JVal.obj [("id", JVal.str "u")])],
        some ⟨[], true, "boom"⟩⟩ "u" (JVal.obj []) 0 "T").1 =
      Except.error "Impossible de mettre à jour le profil: boom" := by
  rfl

/-- The durable tier yields no profile for `uid`: absent adapter, a
throwing adapter, or no record. -/
def durableMiss (s : ServiceState) (uid : String) : Prop :=
  match s.supabase with
  | none => True
  | some st => st.fail = true ∨ getKey st.records uid = none

/-- Claim C5 (amended): when the cache misses (or is stale), the durable
store is absent, failing, or has no record, and the fallback table has no
entry, `getUserProfile` synthesizes a default profile for the id and
returns it — but persists it to no tier: the state is returned unchanged,
so a later read synthesizes a fresh default rather than finding this one. -/
theorem getUserProfile_default_not_persisted (s : ServiceState) (uid : String)
    (nowMs : Nat) (iso : String)
    (hc : freshAt s uid nowMs = none)
    (hm : getKey s.memoryUsers uid = none)
    (hd : durableMiss s uid) :
    getUserProfile s uid nowMs iso = (getDefaultProfile uid iso, s) := by
  have hmd : memOrDefault s uid iso = getDefaultProfile uid iso := by
    unfold memOrDefault
    rw [hm]
  obtain ⟨cache, mem, sup⟩ := s
  unfold durableMiss at hd
  unfold freshAt at hc
  rcases sup with _ | st
  · unfold getUserProfile
    rw [← hmd]
    revert hc
    (repeat' split) <;> simp_all
  · rcases hd with hf | hr
    · unfold getUserProfile
      rw [← hmd]
      revert hc
      simp only [hf]
      (repeat' split) <;> simp_all
    · unfold getUserProfile
      rw [← hmd]
      revert hc
      (repeat' split) <;> simp_all

/-- Witness for claim C5's amended theorem: concrete empty repository. -/
theorem getUserProfile_default_not_persisted_witness :
    getUserProfile ⟨[], [], none⟩ "u" 0 "T" =
      (getDefaultProfile "u" "T", (⟨[], [], none⟩ : ServiceState)) :=
  getUserProfile_default_not_persisted ⟨[], [], none⟩ "u" 0 "T" rfl rfl trivial

/-- Counterexample to claim C5 as stated: reading an unknown id from an
empty repository returns the synthesized default profile, yet afterwards
every tier is still empty — the default was not persisted, so a
subsequent read cannot find it in a tier. -/
theorem getUserProfile_default_cex :
    (getUserProfile ⟨[], [], none⟩ "u" 0 "T").1 = getDefaultProfile "u" "T" ∧
    (getUserProfile ⟨[], [], none⟩ "u" 0 "T").2.profilesCache = [] ∧
    (getUserProfile ⟨[], [], none⟩ "u" 0 "T").2.memoryUsers = [] ∧
    (getUserProfile ⟨[], [], none⟩ "u" 0 "T").2.supabase = none :=
  ⟨rfl, rfl, rfl, rfl⟩

/-- Witness for claim C1 at a concrete state: a 1-second-old cache entry
is fresh and is returned with the state unchanged. -/
theorem getUserProfile_tier_order_witness :
    freshAt ⟨[("u", ⟨JVal.str "p", 0⟩)], [], none⟩ "u" 1000 = some (JVal.str "p") ∧
    getUserProfile ⟨[("u", ⟨JVal.str "p", 0⟩)], [], none⟩ "u" 1000 "T" =
      (JVal.str "p", (⟨[("u", ⟨JVal.str "p", 0⟩)], [], none⟩ : ServiceState)) :=
  ⟨rfl, ((getUserProfile_tier_order ⟨[("u", ⟨JVal.str "p", 0⟩)], [], none⟩ "u" 1000 "T").1
      (JVal.str "p") rfl).1⟩

end SurfAI

namespace SurfAI

/-! ### The scoring engine -/

/-! ### The scoring engine

`calculateAdvancedSpotScore` (source lines 605-642) works on JavaScript
floating-point numbers, whose division by zero yields infinities or NaN.
Its arithmetic is embedded over `JNum`: exact rationals extended with the
IEEE special values (the negative zero and finite rounding error of
doubles are not modelled; all service inputs are small decimals). -/
inductive JNum where
  | fin (q : ℚ)
  | posInf
  | negInf
  | nan
deriving DecidableEq

def jneg : JNum → JNum
  | .fin q => .fin (-q)
  | .posInf => .negInf
  | .negInf => .posInf
  | .nan => .nan

def jadd : JNum → JNum → JNum
  | .nan, _ => .nan
  | _, .nan => .nan
  | .fin a, .fin b => .fin (a + b)
  | .posInf, .negInf => .nan
  | .negInf, .posInf => .nan
  | .posInf, _ => .posInf
  | _, .posInf => .posInf
  | .negInf, _ => .negInf
  | _, .negInf => .negInf

def jsub (a b : JNum) : JNum := jadd a (jneg b)

def jmul : JNum → JNum → JNum
  | .nan, _ => .nan
  | _, .nan => .nan
  | .fin a, .fin b => .fin (a * b)
  | .fin a, .posInf => if 0 < a then .posInf else if a < 0 then .negInf else .nan
  | .fin a, .negInf => if 0 < a then .negInf else if a < 0 then .posInf else .nan
  | .posInf, .fin b => if 0 < b then .posInf else if b < 0 then .negInf else .nan
  | .negInf, .fin b => if 0 < b then .negInf else if b < 0 then .posInf else .nan
  | .posInf, .posInf => .posInf
  | .posInf, .negInf => .negInf
  | .negInf, .posInf => .negInf
  | .negInf, .negInf => .posInf

def jdiv : JNum → JNum → JNum
  | .nan, _ => .nan
  | _, .nan => .nan
  | .fin a, .fin b =>
      if b = 0 then (if a = 0 then .nan else if 0 < a then .posInf else .negInf)
      else .fin (a / b)
  | .fin _, .posInf => .fin 0
  | .fin _, .negInf => .fin 0
  | .posInf, .fin b => if 0 ≤ b then .posInf else .negInf
  | .negInf, .fin b => if 0 ≤ b then .negInf else .posInf
  | _, _ => .nan

def jabs : JNum → JNum
  | .fin q => .fin |q|
  | .nan => .nan
  | _ => .posInf

def jmaxJ : JNum → JNum → JNum
  | .nan, _ => .nan
  | _, .nan => .nan
  | .posInf, _ => .posInf
  | _, .posInf => .posInf
  | .negInf, b => b
  | a, .negInf => a
  | .fin a, .fin b => .fin (max a b)

def jminJ : JNum → JNum → JNum
  | .nan, _ => .nan
  | _, .nan => .nan
  | .negInf, _ => .negInf
  | _, .negInf => .negInf
  | .posInf, b => b
  | a, .posInf => a
  | .fin a, .fin b => .fin (min a b)

def jround : JNum → JNum
  | .fin q => .fin ((⌊q + 1 / 2⌋ : ℤ) : ℚ)
  | x => x

end SurfAI

namespace SurfAI

inductive CrowdTol where
  | low
  | medium
  | high
deriving DecidableEq

/-- The `crowdFactors` 3x3 table with the `|| 1` default for an unknown
`conditions.crowd` string (source lines 633-638).  An unknown
`crowdTolerance` would throw in JavaScript; profiles built by this
service always carry one of the three values, defaulting to medium. -/
def crowdFactorLookup : CrowdTol → String → ℚ
  | .low, c =>
      if c = "low" then 1 else if c = "medium" then 9/10 else if c = "high" then 8/10 else 1
  | .medium, c =>
      if c = "low" then 9/10 else if c = "medium" then 1 else if c = "high" then 7/10 else 1
  | .high, c =>
      if c = "low" then 8/10 else if c = "medium" then 9/10 else if c = "high" then 1 else 1

structure ScoringUser where
  waveMin : ℚ
  waveMax : ℚ
  waveOptimal : ℚ
  windToleranceOnshore : ℚ
  overall : ℚ
  sessionsCount : ℚ
  crowdTolerance : CrowdTol

structure SpotConditions where
  waveHeight : ℚ
  windSpeed : ℚ
  crowd : Option String

/-- `calculateAdvancedSpotScore(user, conditions)` (source lines
605-642): base 5.0 multiplied by the wave-fit step (penalty 0.3 outside
`[min, max]`), the wind factor, the level/experience factor and the
crowd-compatibility factor, then rounded to one decimal. -/
def calculateAdvancedSpotScore (u : ScoringUser) (c : SpotConditions) : JNum :=
  let score : JNum := .fin 5
  let waveRange := jsub (.fin u.waveMax) (.fin u.waveMin)
  let score :=
    if u.waveMin ≤ c.waveHeight ∧ c.waveHeight ≤ u.waveMax then
      let distanceFromOptimal := jabs (jsub (.fin c.waveHeight) (.fin u.waveOptimal))
      let waveFactor := jsub (.fin 1) (jdiv distanceFromOptimal waveRange)
      jmul score (jadd (.fin (1/2)) (jmul (.fin (1/2)) waveFactor))
    else jmul score (.fin (3/10))
  let windFactor := jmaxJ (.fin (1/5))
    (jsub (.fin 1) (jdiv (.fin c.windSpeed) (.fin u.windToleranceOnshore)))
  let score := jmul score windFactor
  let levelFactor := jminJ (.fin 1) (jdiv (.fin u.overall) (.fin 10))
  let experienceFactor := jminJ (.fin 1) (jdiv (.fin u.sessionsCount) (.fin 100))
  let score := jmul score
    (jadd (jadd (.fin (6/10)) (jmul (.fin (2/10)) levelFactor))
      (jmul (.fin (2/10)) experienceFactor))
  let score :=
    match c.crowd with
    | some cr =>
        if cr ≠ "" then jmul score (.fin (crowdFactorLookup u.crowdTolerance cr)) else score
    | none => score
  jdiv (jround (jmul score (.fin 10))) (.fin 10)

/-- Exact closed forms of the score computation, used to state bounds:
they agree with the `JNum` computation whenever the wave-size range and
the wind tolerance are nonzero (`calculateAdvancedSpotScore_eq_fin`). -/
def crowdFactorCondQ (tol : CrowdTol) (crowd : Option String) : ℚ :=
  match crowd with
  | some cr => if cr ≠ "" then crowdFactorLookup tol cr else 1
  | none => 1

def windFactorQ (u : ScoringUser) (c : SpotConditions) : ℚ :=
  max (1/5) (1 - c.windSpeed / u.windToleranceOnshore)

def levelExpFactorQ (u : ScoringUser) : ℚ :=
  6/10 + 2/10 * min 1 (u.overall / 10) + 2/10 * min 1 (u.sessionsCount / 100)

def waveStepQ (u : ScoringUser) (c : SpotConditions) : ℚ :=
  if u.waveMin ≤ c.waveHeight ∧ c.waveHeight ≤ u.waveMax then
    5 * (1/2 + 1/2 * (1 - |c.waveHeight - u.waveOptimal| / (u.waveMax - u.waveMin)))
  else 5 * (3/10)

def scoreRawQ (u : ScoringUser) (c : SpotConditions) : ℚ :=
  waveStepQ u c * windFactorQ u c * levelExpFactorQ u *
    crowdFactorCondQ u.crowdTolerance c.crowd

def jsRound1 (x : ℚ) : ℚ := ((⌊x * 10 + 1/2⌋ : ℤ) : ℚ) / 10

theorem jadd_fin (a b : ℚ) : jadd (.fin a) (.fin b) = .fin (a + b) := rfl

theorem jsub_fin (a b : ℚ) : jsub (.fin a) (.fin b) = .fin (a - b) := by
  simp [jsub, jadd, jneg, sub_eq_add_neg]

theorem jmul_fin (a b : ℚ) : jmul (.fin a) (.fin b) = .fin (a * b) := rfl

theorem jdiv_fin (a b : ℚ) (hb : b ≠ 0) : jdiv (.fin a) (.fin b) = .fin (a / b) := by
  simp [jdiv, hb]

theorem jabs_fin (a : ℚ) : jabs (.fin a) = .fin |a| := rfl

theorem jmaxJ_fin (a b : ℚ) : jmaxJ (.fin a) (.fin b) = .fin (max a b) := rfl

theorem jminJ_fin (a b : ℚ) : jminJ (.fin a) (.fin b) = .fin (min a b) := rfl

theorem jround_fin (a : ℚ) : jround (.fin a) = .fin ((⌊a + 1/2⌋ : ℤ) : ℚ) := rfl

theorem calculateAdvancedSpotScore_eq_fin (u : ScoringUser) (c : SpotConditions)
    (hr : u.waveMax - u.waveMin ≠ 0) (ht : u.windToleranceOnshore ≠ 0) :
    calculateAdvancedSpotScore u c = .fin (jsRound1 (scoreRawQ u c)) := by
  have h10 : (10 : ℚ) ≠ 0 := by norm_num
  have h100 : (100 : ℚ) ≠ 0 := by norm_num
  unfold calculateAdvancedSpotScore scoreRawQ waveStepQ windFactorQ levelExpFactorQ
    crowdFactorCondQ jsRound1
  rcases hcr : c.crowd with _ | cr
  · by_cases hin : u.waveMin ≤ c.waveHeight ∧ c.waveHeight ≤ u.waveMax <;>
      simp [hin, jsub_fin, jdiv_fin _ _ hr, jdiv_fin _ _ ht,
        jdiv_fin _ _ h10, jdiv_fin _ _ h100, jabs_fin, jmul_fin, jadd_fin,
        jmaxJ_fin, jminJ_fin, jround_fin]
  · by_cases hcre : cr = "" <;>
      by_cases hin : u.waveMin ≤ c.waveHeight ∧ c.waveHeight ≤ u.waveMax <;>
        simp [hin, hcre, jsub_fin, jdiv_fin _ _ hr, jdiv_fin _ _ ht,
          jdiv_fin _ _ h10, jdiv_fin _ _ h100, jabs_fin, jmul_fin, jadd_fin,
          jmaxJ_fin, jminJ_fin, jround_fin]

end SurfAI

namespace SurfAI

theorem windFactorQ_pos (u : ScoringUser) (c : SpotConditions) : 0 < windFactorQ u c :=
  lt_of_lt_of_le (by norm_num) (le_max_left _ _)

theorem windFactorQ_le_one (u : ScoringUser) (c : SpotConditions)
    (hws : 0 ≤ c.windSpeed) (htol : 0 < u.windToleranceOnshore) :
    windFactorQ u c ≤ 1 := by
  unfold windFactorQ
  have : 0 ≤ c.windSpeed / u.windToleranceOnshore := div_nonneg hws htol.le
  apply max_le (by norm_num) (by linarith)

theorem levelExpFactorQ_pos (u : ScoringUser) (hl : 0 ≤ u.overall)
    (hs : 0 ≤ u.sessionsCount) : 0 < levelExpFactorQ u := by
  unfold levelExpFactorQ
  have h1 : (0:ℚ) ≤ min 1 (u.overall / 10) := le_min (by norm_num) (by positivity)
  have h2 : (0:ℚ) ≤ min 1 (u.sessionsCount / 100) := le_min (by norm_num) (by positivity)
  nlinarith

theorem levelExpFactorQ_le_one (u : ScoringUser) : levelExpFactorQ u ≤ 1 := by
  unfold levelExpFactorQ
  have h1 : min 1 (u.overall / 10) ≤ 1 := min_le_left _ _
  have h2 : min 1 (u.sessionsCount / 100) ≤ 1 := min_le_left _ _
  nlinarith

theorem crowdFactorCondQ_pos (tol : CrowdTol) (crowd : Option String) :
    0 < crowdFactorCondQ tol crowd := by
  unfold crowdFactorCondQ
  rcases crowd with _ | cr
  · norm_num
  · cases tol <;> simp only [crowdFactorLookup] <;> split_ifs <;> norm_num

theorem crowdFactorCondQ_le_one (tol : CrowdTol) (crowd : Option String) :
    crowdFactorCondQ tol crowd ≤ 1 := by
  unfold crowdFactorCondQ
  rcases crowd with _ | cr
  · norm_num
  · cases tol <;> simp only [crowdFactorLookup] <;> split_ifs <;> norm_num

theorem jsRound1_mono {a b : ℚ} (h : a ≤ b) : jsRound1 a ≤ jsRound1 b := by
  unfold jsRound1
  have hf : ⌊a * 10 + 1/2⌋ ≤ ⌊b * 10 + 1/2⌋ := Int.floor_le_floor (by linarith)
  have hc : ((⌊a * 10 + 1/2⌋ : ℤ) : ℚ) ≤ ((⌊b * 10 + 1/2⌋ : ℤ) : ℚ) := by exact_mod_cast hf
  linarith

theorem waveStepQ_strict_anti (u : ScoringUser) (c : SpotConditions) (h1 h2 : ℚ)
    (hminmax : u.waveMin < u.waveMax)
    (h1lo : u.waveMin ≤ h1) (h1hi : h1 ≤ u.waveMax)
    (h2lo : u.waveMin ≤ h2) (h2hi : h2 ≤ u.waveMax)
    (hd : |h1 - u.waveOptimal| < |h2 - u.waveOptimal|) :
    waveStepQ u { c with waveHeight := h2 } < waveStepQ u { c with waveHeight := h1 } := by
  unfold waveStepQ
  have hr0 : 0 < u.waveMax - u.waveMin := sub_pos.2 hminmax
  rw [if_pos ⟨h2lo, h2hi⟩, if_pos ⟨h1lo, h1hi⟩]
  have hdr : |h1 - u.waveOptimal| / (u.waveMax - u.waveMin) <
      |h2 - u.waveOptimal| / (u.waveMax - u.waveMin) := by gcongr
  linarith

end SurfAI

namespace SurfAI

theorem condWith_windSpeed (c : SpotConditions) (h : ℚ) :
    ({ c with waveHeight := h } : SpotConditions).windSpeed = c.windSpeed := rfl

theorem condWith_crowd (c : SpotConditions) (h : ℚ) :
    ({ c with waveHeight := h } : SpotConditions).crowd = c.crowd := rfl

theorem windFactorQ_update (u : ScoringUser) (c : SpotConditions) (h : ℚ) :
    windFactorQ u { c with waveHeight := h } = windFactorQ u c := rfl

theorem waveStepQ_anti (u : ScoringUser) (c : SpotConditions) (h1 h2 : ℚ)
    (hminmax : u.waveMin < u.waveMax)
    (h1lo : u.waveMin ≤ h1) (h1hi : h1 ≤ u.waveMax)
    (h2lo : u.waveMin ≤ h2) (h2hi : h2 ≤ u.waveMax)
    (hd : |h1 - u.waveOptimal| ≤ |h2 - u.waveOptimal|) :
    waveStepQ u { c with waveHeight := h2 } ≤ waveStepQ u { c with waveHeight := h1 } := by
  unfold waveStepQ
  have hr0 : 0 < u.waveMax - u.waveMin := sub_pos.2 hminmax
  rw [if_pos ⟨h2lo, h2hi⟩, if_pos ⟨h1lo, h1hi⟩]
  have hdr : |h1 - u.waveOptimal| / (u.waveMax - u.waveMin) ≤
      |h2 - u.waveOptimal| / (u.waveMax - u.waveMin) := by gcongr
  linarith

/-- Claim C6 (amended): for a profile with `min < max`,
`min ≤ optimal ≤ max` and sane fixed wind/level/experience inputs, the
unrounded score is maximized at `waveHeight == optimal` and strictly
decreases as the distance from optimal grows within `[min, max]`; the
returned score (rounded to one decimal) is correspondingly weakly
decreasing, and outside `[min, max]` the wave step is the fixed
`5 * 0.3` penalty and the returned score is at most `1.5`.  The final
conjunct ties the returned `JNum` value to the exact closed form. -/
theorem spotScore_wave_monotonicity (u : ScoringUser) (c : SpotConditions) (h1 h2 h3 : ℚ)
    (hminmax : u.waveMin < u.waveMax)
    (hoptlo : u.waveMin ≤ u.waveOptimal) (hopthi : u.waveOptimal ≤ u.waveMax)
    (hws : 0 ≤ c.windSpeed) (htol : 0 < u.windToleranceOnshore)
    (hlvl : 0 ≤ u.overall) (hsess : 0 ≤ u.sessionsCount) :
    (u.waveMin ≤ h1 → h1 ≤ u.waveMax → u.waveMin ≤ h2 → h2 ≤ u.waveMax →
       |h1 - u.waveOptimal| < |h2 - u.waveOptimal| →
       scoreRawQ u { c with waveHeight := h2 } < scoreRawQ u { c with waveHeight := h1 } ∧
       jsRound1 (scoreRawQ u { c with waveHeight := h2 }) ≤
         jsRound1 (scoreRawQ u { c with waveHeight := h1 })) ∧
    (u.waveMin ≤ h3 → h3 ≤ u.waveMax →
       scoreRawQ u { c with waveHeight := h3 } ≤
         scoreRawQ u { c with waveHeight := u.waveOptimal }) ∧
    (¬(u.waveMin ≤ h3 ∧ h3 ≤ u.waveMax) →
       waveStepQ u { c with waveHeight := h3 } = 5 * (3/10) ∧
       jsRound1 (scoreRawQ u { c with waveHeight := h3 }) ≤ 3/2) ∧
    (∀ h : ℚ, calculateAdvancedSpotScore u { c with waveHeight := h } =
       .fin (jsRound1 (scoreRawQ u { c with waveHeight := h }))) := by
  have hwpos := windFactorQ_pos u c
  have hlpos := levelExpFactorQ_pos u hlvl hsess
  have hcpos := crowdFactorCondQ_pos u.crowdTolerance c.crowd
  refine ⟨?_, ?_, ?_, ?_⟩
  · intro h1lo h1hi h2lo h2hi hd
    have hsw := waveStepQ_strict_anti u c h1 h2 hminmax h1lo h1hi h2lo h2hi hd
    have hstrict : scoreRawQ u { c with waveHeight := h2 } <
        scoreRawQ u { c with waveHeight := h1 } := by
      unfold scoreRawQ
      rw [windFactorQ_update, windFactorQ_update, condWith_crowd, condWith_crowd]
      exact mul_lt_mul_of_pos_right
        (mul_lt_mul_of_pos_right (mul_lt_mul_of_pos_right hsw hwpos) hlpos) hcpos
    exact ⟨hstrict, jsRound1_mono hstrict.le⟩
  · intro h3lo h3hi
    have hd : |u.waveOptimal - u.waveOptimal| ≤ |h3 - u.waveOptimal| := by
      simp [abs_nonneg]
    have hsw := waveStepQ_anti u c u.waveOptimal h3 hminmax hoptlo hopthi h3lo h3hi hd
    unfold scoreRawQ
    rw [windFactorQ_update, windFactorQ_update, condWith_crowd, condWith_crowd]
    exact mul_le_mul_of_nonneg_right
      (mul_le_mul_of_nonneg_right (mul_le_mul_of_nonneg_right hsw hwpos.le) hlpos.le) hcpos.le
  · intro hout
    have hstep : waveStepQ u { c with waveHeight := h3 } = 5 * (3/10) := by
      unfold waveStepQ
      rw [if_neg hout]
    refine ⟨hstep, ?_⟩
    have hw1 := windFactorQ_le_one u c hws htol
    have hl1 := levelExpFactorQ_le_one u
    have hc1 := crowdFactorCondQ_le_one u.crowdTolerance c.crowd
    have hraw : scoreRawQ u { c with waveHeight := h3 } ≤ 3/2 := by
      unfold scoreRawQ
      rw [windFactorQ_update, condWith_crowd, hstep]
      have hWL : windFactorQ u c * levelExpFactorQ u ≤ 1 := mul_le_one₀ hw1 hlpos.le hl1
      have hWLC : windFactorQ u c * levelExpFactorQ u *
          crowdFactorCondQ u.crowdTolerance c.crowd ≤ 1 := mul_le_one₀ hWL hcpos.le hc1
      have hWLC0 : 0 ≤ windFactorQ u c * levelExpFactorQ u *
          crowdFactorCondQ u.crowdTolerance c.crowd := by positivity
      nlinarith
    have h32 : jsRound1 (3/2) = 3/2 := by
      unfold jsRound1
      norm_num [Int.floor_eq_iff]
    calc jsRound1 (scoreRawQ u { c with waveHeight := h3 }) ≤ jsRound1 (3/2) :=
          jsRound1_mono hraw
      _ = 3/2 := h32
  · intro h
    exact calculateAdvancedSpotScore_eq_fin u _ (ne_of_gt (sub_pos.2 hminmax)) (ne_of_gt htol)

end SurfAI

namespace SurfAI

/-- Counterexample to claim C6 as stated: the function's returned value
is the score rounded to one decimal, and rounding collapses nearby
scores — at wave heights `1` (the optimal, distance `0`) and `1.01`
(distance `0.01`) the returned score is `5.0` in both cases, so the
returned score does not strictly decrease with the distance from
optimal. -/
theorem spotScore_strict_decrease_cex :
    ((0:ℚ) ≤ 1 ∧ (1:ℚ) ≤ 2) ∧ ((0:ℚ) ≤ 101/100 ∧ (101:ℚ)/100 ≤ 2) ∧
    |(1:ℚ) - 1| < |(101:ℚ)/100 - 1| ∧
    calculateAdvancedSpotScore ⟨0, 2, 1, 15, 10, 100, CrowdTol.medium⟩ ⟨1, 0, none⟩ =
      JNum.fin 5 ∧
    calculateAdvancedSpotScore ⟨0, 2, 1, 15, 10, 100, CrowdTol.medium⟩ ⟨101/100, 0, none⟩ =
      JNum.fin 5 := by
  refine ⟨⟨by norm_num, by norm_num⟩, ⟨by norm_num, by norm_num⟩, ?_, ?_, ?_⟩
  · rw [show |(1:ℚ) - 1| = 0 by norm_num,
      show |(101:ℚ)/100 - 1| = 1/100 by rw [abs_of_nonneg] <;> norm_num]
    norm_num
  · rw [calculateAdvancedSpotScore_eq_fin _ _ (by norm_num) (by norm_num)]
    norm_num [jsRound1, scoreRawQ, waveStepQ, windFactorQ, levelExpFactorQ,
      crowdFactorCondQ, min_def, max_def, Int.floor_eq_iff]
  · rw [calculateAdvancedSpotScore_eq_fin _ _ (by norm_num) (by norm_num)]
    norm_num [jsRound1, scoreRawQ, waveStepQ, windFactorQ, levelExpFactorQ,
      crowdFactorCondQ, min_def, max_def, abs_of_nonneg, Int.floor_eq_iff]

/-- Claim C7: the source has no guard for a zero-width wave-size range.
With `min = max = optimal = waveHeight = 1.2` the wave-fit computation
divides `0 / 0`, which is NaN in JavaScript, and NaN propagates through
every later factor, `Math.round`, and the final division: the returned
score is NaN — not the neutral well-defined number the claim (and the
spec's stated intent) requires. -/
theorem spotScore_zero_range_nan :
    calculateAdvancedSpotScore ⟨6/5, 6/5, 6/5, 15, 3, 0, CrowdTol.medium⟩ ⟨6/5, 0, none⟩ =
      JNum.nan := by
  norm_num [calculateAdvancedSpotScore, jsub, jadd, jneg, jmul, jdiv, jabs,
    jmaxJ, jminJ, jround, min_def, max_def]

end SurfAI

namespace SurfAI

/-- Witness for claim C6's amended theorem at a concrete profile
(`[0, 2]` range, optimal `1`): the raw score at height `3/2` is strictly
below the raw score at the optimal height, and the rounded score is no
larger. -/
theorem spotScore_wave_monotonicity_witness :
    scoreRawQ ⟨0, 2, 1, 15, 10, 100, CrowdTol.medium⟩
        { (⟨0, 0, none⟩ : SpotConditions) with waveHeight := 3/2 } <
      scoreRawQ ⟨0, 2, 1, 15, 10, 100, CrowdTol.medium⟩
        { (⟨0, 0, none⟩ : SpotConditions) with waveHeight := 1 } ∧
    jsRound1 (scoreRawQ ⟨0, 2, 1, 15, 10, 100, CrowdTol.medium⟩
        { (⟨0, 0, none⟩ : SpotConditions) with waveHeight := 3/2 }) ≤
      jsRound1 (scoreRawQ ⟨0, 2, 1, 15, 10, 100, CrowdTol.medium⟩
        { (⟨0, 0, none⟩ : SpotConditions) with waveHeight := 1 }) :=
  (spotScore_wave_monotonicity ⟨0, 2, 1, 15, 10, 100, CrowdTol.medium⟩ ⟨0, 0, none⟩
      1 (3/2) 3 (by norm_num) (by norm_num) (by norm_num) (by norm_num) (by norm_num)
      (by norm_num) (by norm_num)).1
    (by norm_num) (by norm_num) (by norm_num) (by norm_num)
    (by rw [show |(1:ℚ) - 1| = 0 by norm_num,
          show |(3:ℚ)/2 - 1| = 1/2 by rw [abs_of_nonneg] <;> norm_num]
        norm_num)

end SurfAI

namespace SurfAI

/-! ### The progress/stats aggregator

`getUserStats` (source lines 715-764) combines the profile, the session
history (`getUserSessions` result: the session list and its total), the
optional Supabase favorite/board counts, and a fresh random draw for
`totalPredictions` (`Math.floor(Math.random() * 50) + 20`, modelled by
the explicit `rand` parameter, the value of `Math.floor(Math.random() * 50)`).
A session record carries the fields the aggregator reads: its date
(milliseconds) and its overall rating. -/
structure StatSession where
  date : ℚ
  ratingOverall : ℚ

/-- `calculateAverageRating` (source lines 648-652): 0 for no sessions,
else the mean overall rating rounded to one decimal.  (The source's
`session.rating?.overall || session.rating || 0` fallback chain collapses
here because every modelled session carries `rating.overall`; a zero
rating contributes zero through either branch.) -/
def calculateAverageRating (sessions : List StatSession) : ℚ :=
  if sessions.length = 0 then 0
  else
    let total := sessions.foldl (fun sum s => sum + s.ratingOverall) 0
    ((⌊total / (sessions.length : ℚ) * 10 + 1/2⌋ : ℤ) : ℚ) / 10

/-- The `for` loop of `calculateStreak` (source lines 771-781): walk the
remaining sessions, counting while each date is at most 7 days from the
previous one, stopping at the first larger gap. -/
def streakGo (prev : ℚ) : List StatSession → Nat
  | [] => 0
  | s :: rest =>
      if |s.date - prev| / (1000 * 60 * 60 * 24) ≤ 7 then 1 + streakGo s.date rest
      else 0

/-- `calculateStreak` (source lines 766-784): 0 for an empty list, else
1 plus the count of consecutive adjacent pairs at most 7 days apart. -/
def calculateStreak : List StatSession → Nat
  | [] => 0
  | s :: rest => 1 + streakGo s.date rest

structure UserStats where
  totalSessions : Nat
  avgRating : ℚ
  favoriteSpots : Nat
  totalBoards : Nat
  totalPredictions : Nat
  currentStreak : Nat
  level : JVal
  experience : JVal

def jarrLen : JVal → Nat
  | .arr xs => xs.length
  | _ => 0

/-- `getUserStats` success path (source lines 742-751).  `favCount` and
`boardCount` model the Supabase counts when the store is present (`none`
when absent or the count is null); a zero count is falsy in
`count || fallback` and falls back to the profile's list lengths. -/
def getUserStats (user : JVal) (sessions : List StatSession) (total : Nat)
    (favCount boardCount : Option Nat) (rand : Nat) : UserStats :=
  let baseFav := jarrLen (jgetV (jgetV user "spots") "favorites")
  let favoritesCount :=
    match favCount with
    | some c => if c = 0 then baseFav else c
    | none => baseFav
  let baseBoards := jarrLen (jgetV (jgetV user "equipment") "boards")
  let boardsCount :=
    match boardCount with
    | some c => if c = 0 then baseBoards else c
    | none => baseBoards
  { totalSessions := total
    avgRating := calculateAverageRating sessions
    favoriteSpots := favoritesCount
    totalBoards := boardsCount
    totalPredictions := rand + 20
    currentStreak := calculateStreak sessions
    level := jgetV (jgetV user "surfLevel") "overall"
    experience := jgetV (jgetV user "surfLevel") "experience" }

/-- Claim C8 (amended): every field of `getUserStats` except
`totalPredictions` is a pure function of the profile, the session
history and the store counts — two runs agree on all of them;
`totalPredictions` is `rand + 20` for a fresh random draw `rand`, so it
varies between runs. -/
theorem getUserStats_deterministic_except_predictions (user : JVal)
    (sessions : List StatSession) (total : Nat) (favCount boardCount : Option Nat)
    (rand1 rand2 : Nat) :
    (getUserStats user sessions total favCount boardCount rand1).totalSessions =
      (getUserStats user sessions total favCount boardCount rand2).totalSessions ∧
    (getUserStats user sessions total favCount boardCount rand1).avgRating =
      (getUserStats user sessions total favCount boardCount rand2).avgRating ∧
    (getUserStats user sessions total favCount boardCount rand1).favoriteSpots =
      (getUserStats user sessions total favCount boardCount rand2).favoriteSpots ∧
    (getUserStats user sessions total favCount boardCount rand1).totalBoards =
      (getUserStats user sessions total favCount boardCount rand2).totalBoards ∧
    (getUserStats user sessions total favCount boardCount rand1).currentStreak =
      (getUserStats user sessions total favCount boardCount rand2).currentStreak ∧
    (getUserStats user sessions total favCount boardCount rand1).level =
      (getUserStats user sessions total favCount boardCount rand2).level ∧
    (getUserStats user sessions total favCount boardCount rand1).experience =
      (getUserStats user sessions total favCount boardCount rand2).experience ∧
    (getUserStats user sessions total favCount boardCount rand1).totalPredictions =
      rand1 + 20 :=
  ⟨rfl, rfl, rfl, rfl, rfl, rfl, rfl, rfl⟩

/-- Counterexample to claim C8 as stated: two computations of the stats
on identical profile and session inputs, differing only in the random
draw (0 versus 1), return different outputs — `totalPredictions` is 20
in one and 21 in the other. -/
theorem getUserStats_random_cex :
    getUserStats (JVal.obj []) [] 0 none none 0 ≠
      getUserStats (JVal.obj []) [] 0 none none 1 := by
  intro h
  have h2 := congrArg UserStats.totalPredictions h
  simp [getUserStats] at h2

/-- Claim C9: the streak is 0 for no sessions and at least 1 otherwise;
an adjacent pair at most 7 days apart extends the streak recursively and
a larger gap stops it at 1; sessions at day offsets `[0, 5, 20]`
(dates descending, in milliseconds) yield streak 2. -/
theorem calculateStreak_spec :
    calculateStreak [] = 0 ∧
    (∀ (s : StatSession) (rest : List StatSession), 1 ≤ calculateStreak (s :: rest)) ∧
    (∀ (s1 s2 : StatSession) (rest : List StatSession),
       |s2.date - s1.date| / (1000 * 60 * 60 * 24) ≤ 7 →
       calculateStreak (s1 :: s2 :: rest) = 1 + calculateStreak (s2 :: rest)) ∧
    (∀ (s1 s2 : StatSession) (rest : List StatSession),
       ¬(|s2.date - s1.date| / (1000 * 60 * 60 * 24) ≤ 7) →
       calculateStreak (s1 :: s2 :: rest) = 1) ∧
    calculateStreak [⟨1728000000, 8⟩, ⟨1296000000, 8⟩, ⟨0, 8⟩] = 2 := by
  refine ⟨rfl, ?_, ?_, ?_, ?_⟩
  · intro s rest
    exact Nat.le_add_right 1 _
  · intro s1 s2 rest h
    simp [calculateStreak, streakGo, h]
  · intro s1 s2 rest h
    simp [calculateStreak, streakGo, h]
  · have e1 : |(1296000000:ℚ) - 1728000000| = 432000000 := by
      rw [show (1296000000:ℚ) - 1728000000 = -(432000000:ℚ) by norm_num, abs_neg,
        abs_of_nonneg (by norm_num : (0:ℚ) ≤ 432000000)]
    have e2 : |(0:ℚ) - 1296000000| = 1296000000 := by
      rw [show (0:ℚ) - 1296000000 = -(1296000000:ℚ) by norm_num, abs_neg,
        abs_of_nonneg (by norm_num : (0:ℚ) ≤ 1296000000)]
    norm_num [calculateStreak, streakGo, e1, e2]

/-- Witness for claim C9 at concrete sessions 5 days apart: the streak
recurrence applies. -/
theorem calculateStreak_spec_witness :
    calculateStreak [⟨432000000, 8⟩, ⟨0, 8⟩] = 1 + calculateStreak [⟨0, 8⟩] :=
  calculateStreak_spec.2.2.1 ⟨432000000, 8⟩ ⟨0, 8⟩ [] (by
    rw [show |(0:ℚ) - 432000000| = 432000000 from by
      rw [show (0:ℚ) - 432000000 = -(432000000:ℚ) by norm_num, abs_neg,
        abs_of_nonneg (by norm_num : (0:ℚ) ≤ 432000000)]]
    norm_num)

end SurfAI
